import Mathlib

/-!
Verification of the Zenload media-resolution worker
(src/cloudflare-worker/soundcloud-proxy.js and the bundled Express app).

The JavaScript source is shallowly embedded: each `async` function becomes a
pure Lean function over explicit inputs (current time, module-level cache
state, and the responses the upstream network would return), returning its
result together with the updated cache state and the number of outbound
calls it performed.  Fallible code returns `Except String`, the error string
being the JavaScript `Error` message thrown at that point.
-/

namespace Zenload

/-! ## Characters and substrings -/

/-- Double-quote character (written via its code point to keep the file
plain ASCII in code position). -/
def dquote : Char := Char.ofNat 34

/-- Single-quote character. -/
def squote : Char := Char.ofNat 39

/-- Character class `[a-zA-Z0-9]` of the client_id regex. -/
def isAlnumAscii (c : Char) : Bool := c.isAlpha || c.isDigit

/-- JavaScript regex `\s` on the ASCII range: space, tab, LF, VT, FF, CR. -/
def isJsWs (c : Char) : Bool :=
  c = ' ' || c = Char.ofNat 9 || c = Char.ofNat 10 || c = Char.ofNat 11 ||
  c = Char.ofNat 12 || c = Char.ofNat 13

/-- Does `sub` occur as a contiguous run inside `s`?  Embeds JavaScript
`String.prototype.includes`. -/
def containsSeg (s sub : List Char) : Bool :=
  match s with
  | [] => sub.isEmpty
  | _ :: rest => sub.isPrefixOf s || containsSeg rest sub

/-- String form of `containsSeg`: `url.includes("sndcdn.com")`. -/
def strContains (s sub : String) : Bool := containsSeg s.data sub.data

/-! ## The client_id token regex

The scraper looks for `client_id\s*[:=]\s*["']([a-zA-Z0-9]{32})["']` inside a
fetched script.  We embed that regex as a direct scanner: `matchAt` tries the
pattern at the head of a character list, `findClientId` scans left to right
and returns the leftmost match's capture group. -/

/-- Consume the literal `lit` from the front of `s`. -/
def stripLit (lit s : List Char) : Option (List Char) :=
  match lit, s with
  | [], rest => some rest
  | _ :: _, [] => none
  | l :: ls, c :: cs => if c = l then stripLit ls cs else none

/-- Consume `\s*` (greedy; the following character classes are disjoint from
`\s`, so greediness is equivalent to the regex). -/
def skipWs : List Char → List Char
  | [] => []
  | c :: cs => if isJsWs c then skipWs cs else c :: cs

/-- Consume exactly `n` characters of class `[a-zA-Z0-9]`, returning them
together with the rest of the input. -/
def takeAlnum : Nat → List Char → Option (List Char × List Char)
  | 0, s => some ([], s)
  | _ + 1, [] => none
  | n + 1, c :: cs =>
    if isAlnumAscii c then
      match takeAlnum n cs with
      | some (tk, rest) => some (c :: tk, rest)
      | none => none
    else none

/-- Try the full client_id pattern at the head of `s`; `some tok` is the
capture group (the 32-character token). -/
def matchAt (s : List Char) : Option String :=
  match stripLit ("client_id".data) s with
  | none => none
  | some s1 =>
    match skipWs s1 with
    | [] => none
    | sep :: s2 =>
      if sep = ':' || sep = '=' then
        match skipWs s2 with
        | [] => none
        | q1 :: s3 =>
          if q1 = dquote || q1 = squote then
            match takeAlnum 32 s3 with
            | none => none
            | some (tk, s4) =>
              match s4 with
              | [] => none
              | q2 :: _ =>
                if q2 = dquote || q2 = squote then some (String.mk tk) else none
          else none
      else none

/-- Leftmost match of the client_id pattern in a script's text, as
`scriptContent.match(...)` finds it. -/
def findClientId : List Char → Option String
  | [] => none
  | c :: rest =>
    match matchAt (c :: rest) with
    | some tok => some tok
    | none => findClientId rest

/-! ## The scraping loop of getClientId -/

/-- One script asset referenced by the landing page: its URL and, when the
fetch of it succeeds, its text (`none` embeds a fetch/text failure, which the
loop's `catch` turns into `continue`). -/
structure ScriptAsset where
  url : String
  content : Option String
  deriving DecidableEq, Repr

/-- What one candidate contributes: `none` when it is not on the CDN domain,
when its fetch fails, or when the regex finds nothing in it. -/
def candidateYield (a : ScriptAsset) : Option String :=
  if strContains a.url "sndcdn.com" then
    match a.content with
    | none => none
    | some c => findClientId c.data
  else none

/-- The `for (const match of scriptMatches)` loop of `getClientId`: walk the
script assets in page order; skip non-CDN URLs; on a CDN URL try the fetch,
`continue` on failure, and return the first regex match found. -/
def scrapeClientId : List ScriptAsset → Option String
  | [] => none
  | a :: rest =>
    if strContains a.url "sndcdn.com" then
      match a.content with
      | none => scrapeClientId rest
      | some c =>
        match findClientId c.data with
        | some tok => some tok
        | none => scrapeClientId rest
    else scrapeClientId rest

/-! ## The module-level credential cache -/

/-- The two module-level variables `cachedClientId` (null embeds as `none`)
and `clientIdExpiry` (milliseconds). -/
structure CacheState where
  cachedClientId : Option String
  clientIdExpiry : Nat
  deriving DecidableEq, Repr

/-- The guard `cachedClientId && now < clientIdExpiry`: the cached value must
be truthy (non-null, non-empty) and unexpired. -/
def cacheHit (st : CacheState) (now : Nat) : Bool :=
  match st.cachedClientId with
  | none => false
  | some s => !(s = "") && decide (now < st.clientIdExpiry)

/-- Result of one `getClientId()` call: its return/throw, the module state it
leaves behind, and how many landing-page scrapes it performed (0 on a cache
hit, 1 otherwise — the homepage fetch happens whenever the guard fails). -/
structure GetOutcome where
  result : Except String String
  state : CacheState
  scrapes : Nat
  deriving Repr

/-- The function `getClientId()`.  `now` is `Date.now()`; `scripts` are the
script assets the landing-page HTML references, in page order. -/
def getClientId (st : CacheState) (now : Nat) (scripts : List ScriptAsset) :
    GetOutcome :=
  if cacheHit st now then
    ⟨Except.ok (st.cachedClientId.getD ""), st, 0⟩
  else
    match scrapeClientId scripts with
    | some tok => ⟨Except.ok tok, ⟨some tok, now + 3600000⟩, 1⟩
    | none => ⟨Except.error "Could not extract client_id", st, 1⟩

/-! ## JSON values

Response bodies are `JSON.stringify` of JavaScript objects; we embed them as
a JSON value tree.  `JSON.stringify` drops object keys whose value is
`undefined`, so serializers below emit a key only when the field is present. -/

inductive Json where
  | null : Json
  | str : String → Json
  | num : Int → Json
  | jbool : Bool → Json
  | arr : List Json → Json
  | obj : List (String × Json) → Json

/-- Field lookup on a JSON object (`undefined` elsewhere), used for the
`streamData.url` access. -/
def Json.getField : Json → String → Option Json
  | .obj fields, name => (fields.find? (fun p => p.1 = name)).map (fun p => p.2)
  | _, _ => none

/-- A key/value pair only when the value is present (`JSON.stringify` drops
`undefined`-valued keys). -/
def optField (name : String) : Option Json → List (String × Json)
  | some j => [(name, j)]
  | none => []

/-- Body `{error: msg}`. -/
def errJson (msg : String) : Json := Json.obj [("error", Json.str msg)]

/-- The `response.ok` predicate: status in the range 200–299. -/
def respOk (status : Nat) : Bool := 200 ≤ status && status ≤ 299

/-! ## Upstream data shapes

The upstream JSON is modelled structurally, with exactly the fields the
worker reads; every field the upstream may omit is an `Option`. -/

/-- One transcoding entry of `track.media.transcodings`: the worker reads
only `t.format?.protocol` and `t.url`. -/
structure Transcoding where
  protocol : Option String
  url : Option String
  deriving DecidableEq, Repr

/-- The `track.user` object (`username` / `full_name` may be absent). -/
structure UpUser where
  username : Option String
  fullName : Option String
  deriving DecidableEq, Repr

/-- An upstream track object, restricted to the fields the worker copies.
`media` is `some ts` when `track.media.transcodings` is the array `ts`, and
`none` when `media` or `media.transcodings` is absent. -/
structure UpTrack where
  id : Option Nat
  title : Option String
  permalinkUrl : Option String
  duration : Option Nat
  artworkUrl : Option String
  user : Option UpUser
  media : Option (List Transcoding)
  deriving DecidableEq, Repr

/-- A track in the simplified format `searchTracks` produces: same fields,
with `user?.username` / `user?.full_name` flattened through the optional
chain. -/
structure OutTrack where
  id : Option Nat
  title : Option String
  permalinkUrl : Option String
  duration : Option Nat
  artworkUrl : Option String
  username : Option String
  fullName : Option String
  media : Option (List Transcoding)
  deriving DecidableEq, Repr

/-- The `.map(track => ({...}))` body of `searchTracks`. -/
def normalizeTrack (t : UpTrack) : OutTrack :=
  { id := t.id
    title := t.title
    permalinkUrl := t.permalinkUrl
    duration := t.duration
    artworkUrl := t.artworkUrl
    username := (t.user.map UpUser.username).join
    fullName := (t.user.map UpUser.fullName).join
    media := t.media }

/-- Serialization of one transcoding back to JSON (for pass-through bodies). -/
def transcodingToJson (t : Transcoding) : Json :=
  Json.obj (optField "format"
      ((t.protocol.map (fun p => Json.obj [("protocol", Json.str p)]))) ++
    optField "url" (t.url.map Json.str))

/-- Serialization of a simplified track, dropping absent fields as
`JSON.stringify` does. -/
def outTrackToJson (t : OutTrack) : Json :=
  Json.obj (optField "id" (t.id.map (fun n => Json.num (Int.ofNat n))) ++
    optField "title" (t.title.map Json.str) ++
    optField "permalink_url" (t.permalinkUrl.map Json.str) ++
    optField "duration" (t.duration.map (fun n => Json.num (Int.ofNat n))) ++
    optField "artwork_url" (t.artworkUrl.map Json.str) ++
    [("user", Json.obj (optField "username" (t.username.map Json.str) ++
      optField "full_name" (t.fullName.map Json.str)))] ++
    optField "media" (t.media.map (fun ts =>
      Json.obj [("transcodings", Json.arr (ts.map transcodingToJson))])))

/-- Serialization of an upstream track (the `/resolve` body passes the
upstream object straight through). -/
def upTrackToJson (t : UpTrack) : Json :=
  Json.obj (optField "id" (t.id.map (fun n => Json.num (Int.ofNat n))) ++
    optField "title" (t.title.map Json.str) ++
    optField "permalink_url" (t.permalinkUrl.map Json.str) ++
    optField "duration" (t.duration.map (fun n => Json.num (Int.ofNat n))) ++
    optField "artwork_url" (t.artworkUrl.map Json.str) ++
    optField "user" (t.user.map (fun u =>
      Json.obj (optField "username" (u.username.map Json.str) ++
        optField "full_name" (u.fullName.map Json.str)))) ++
    optField "media" (t.media.map (fun ts =>
      Json.obj [("transcodings", Json.arr (ts.map transcodingToJson))])))

/-! ## The three upstream-dependent operations -/

/-- Outcome of one worker-side operation: return/throw, the cache state left
behind, and the number of outbound HTTP requests issued. -/
structure OpOutcome (α : Type) where
  result : Except String α
  state : CacheState
  calls : Nat

/-- Response of the `search/tracks` API call: its status and, when the body
is parsed, the `collection` field (absent embeds as `none`). -/
structure SearchResp where
  status : Nat
  collection : Option (List UpTrack)
  deriving Repr

/-- Response of the `resolve` API call. -/
structure ResolveResp where
  status : Nat
  track : UpTrack
  deriving Repr

/-- Response of the transcoding-URL exchange performed by `getStreamUrl`. -/
structure StreamResp where
  status : Nat
  body : Json

/-- The function `searchTracks(query, limit)`.  `query` and `limit` only
feed the request URL, so the upstream answer is the input `resp`. -/
def searchTracks (st : CacheState) (now : Nat) (scripts : List ScriptAsset)
    (resp : SearchResp) : OpOutcome (List OutTrack) :=
  let g := getClientId st now scripts
  match g.result with
  | Except.error e => ⟨Except.error e, g.state, g.scrapes⟩
  | Except.ok _ =>
    if respOk resp.status then
      ⟨Except.ok ((resp.collection.getD []).map normalizeTrack), g.state,
        g.scrapes + 1⟩
    else
      ⟨Except.error ("SoundCloud API error: " ++ Nat.repr resp.status),
        g.state, g.scrapes + 1⟩

/-- The function `resolveUrl(url)`: attach the credential, perform one call,
throw on any non-2xx status, otherwise return the parsed body.  There is no
retry and nothing clears the cache on any status. -/
def resolveUrl (st : CacheState) (now : Nat) (scripts : List ScriptAsset)
    (resp : ResolveResp) : OpOutcome UpTrack :=
  let g := getClientId st now scripts
  match g.result with
  | Except.error e => ⟨Except.error e, g.state, g.scrapes⟩
  | Except.ok _ =>
    if respOk resp.status then
      ⟨Except.ok resp.track, g.state, g.scrapes + 1⟩
    else
      ⟨Except.error ("SoundCloud resolve error: " ++ Nat.repr resp.status),
        g.state, g.scrapes + 1⟩

/-- JavaScript truthiness of an optional string (`undefined`, `null` and
`""` are falsy). -/
def truthyStr : Option String → Bool
  | none => false
  | some s => !(s = "")

/-- The transcoding-selection portion of `getStreamUrl`: the guard
`!track.media?.transcodings`, the `find` for protocol `progressive`, the
`transcodings[0]` fallback, and the `!transcoding?.url` guard. -/
def selectTranscoding (media : Option (List Transcoding)) :
    Except String Transcoding :=
  match media with
  | none => Except.error "No transcodings available"
  | some transcodings =>
    let found := transcodings.find? (fun t => t.protocol = some "progressive")
    let chosen := match found with
      | some t => some t
      | none => transcodings.head?
    match chosen with
    | none => Except.error "No transcoding URL found"
    | some t =>
      if truthyStr t.url then Except.ok t
      else Except.error "No transcoding URL found"

/-- Body `{url: streamData.url, track: {...subset}}` returned by
`getStreamUrl`. -/
def streamResultJson (streamBody : Json) (t : UpTrack) : Json :=
  Json.obj (optField "url" (streamBody.getField "url") ++
    [("track", Json.obj (optField "id" (t.id.map (fun n => Json.num (Int.ofNat n))) ++
      optField "title" (t.title.map Json.str) ++
      optField "permalink_url" (t.permalinkUrl.map Json.str) ++
      optField "duration" (t.duration.map (fun n => Json.num (Int.ofNat n))) ++
      optField "artwork_url" (t.artworkUrl.map Json.str) ++
      [("user", Json.obj ((optField "username"
          (((t.user.map UpUser.username).join).map Json.str)) ++
        optField "full_name" (((t.user.map UpUser.fullName).join).map Json.str)))]))])

/-- The function `getStreamUrl(trackUrl)`: resolve, select a transcoding,
fetch the credential again, exchange the transcoding URL for the signed
stream URL. -/
def getStreamUrl (st : CacheState) (now : Nat) (scripts : List ScriptAsset)
    (rresp : ResolveResp) (sresp : StreamResp) : OpOutcome Json :=
  let r := resolveUrl st now scripts rresp
  match r.result with
  | Except.error e => ⟨Except.error e, r.state, r.calls⟩
  | Except.ok track =>
    match selectTranscoding track.media with
    | Except.error e => ⟨Except.error e, r.state, r.calls⟩
    | Except.ok _ =>
      let g2 := getClientId r.state now scripts
      match g2.result with
      | Except.error e => ⟨Except.error e, g2.state, r.calls + g2.scrapes⟩
      | Except.ok _ =>
        if respOk sresp.status then
          ⟨Except.ok (streamResultJson sresp.body track), g2.state,
            r.calls + g2.scrapes + 1⟩
        else
          ⟨Except.error ("Stream URL fetch error: " ++ Nat.repr sresp.status),
            g2.state, r.calls + g2.scrapes + 1⟩

/-! ## The worker fetch handler -/

/-- An incoming request at the boundary: its method, path, and the `q` /
`url` query parameters (`searchParams.get` returns `null` when absent, which
embeds as `none`). -/
structure Request where
  method : String
  path : String
  q : Option String
  urlParam : Option String
  deriving DecidableEq, Repr

/-- The environment a single handled request runs against: the module cache
state, the clock, the landing-page script assets, and the responses the
three upstream endpoints would give. -/
structure WorkerEnv where
  st : CacheState
  now : Nat
  scripts : List ScriptAsset
  searchResp : SearchResp
  resolveResp : ResolveResp
  streamResp : StreamResp

/-- The `corsHeaders` object, attached to every response the handler
builds. -/
def corsHeaders : List (String × String) :=
  [("Access-Control-Allow-Origin", "*"),
   ("Access-Control-Allow-Methods", "GET, OPTIONS"),
   ("Access-Control-Allow-Headers", "Content-Type"),
   ("Content-Type", "application/json")]

/-- One HTTP response: status, body (absent for the preflight `null` body),
headers. -/
structure HttpResponse where
  status : Nat
  body : Option Json
  headers : List (String × String)

/-- The falsiness check `!query` / `!trackUrl` on a nullable string
parameter: absent and empty both count as missing. -/
def missingParam : Option String → Bool
  | none => true
  | some s => s = ""

/-- The `endpoints` list of the 404 body. -/
def notFoundJson : Json :=
  Json.obj [("error", Json.str "Not found"),
    ("endpoints", Json.arr [Json.str "/search?q=...", Json.str "/resolve?url=...",
      Json.str "/stream?url=...", Json.str "/health"])]

/-- Result of one handled request: the response and the number of outbound
HTTP requests issued while handling it. -/
structure WorkerResult where
  response : HttpResponse
  calls : Nat

/-- The default-export `fetch` handler: OPTIONS preflight, `/health`, the
three parameterized routes with their missing-parameter checks, the 404
fallthrough, and the catch-all mapping a thrown error to a 500 body. -/
def workerFetch (req : Request) (env : WorkerEnv) : WorkerResult :=
  if req.method = "OPTIONS" then ⟨⟨200, none, corsHeaders⟩, 0⟩
  else if req.path = "/health" then
    ⟨⟨200, some (Json.obj [("status", Json.str "ok")]), corsHeaders⟩, 0⟩
  else if req.path = "/search" then
    if missingParam req.q then
      ⟨⟨400, some (errJson "Missing query parameter: q"), corsHeaders⟩, 0⟩
    else
      let o := searchTracks env.st env.now env.scripts env.searchResp
      match o.result with
      | Except.ok tracks =>
        ⟨⟨200, some (Json.obj [("tracks", Json.arr (tracks.map outTrackToJson))]),
          corsHeaders⟩, o.calls⟩
      | Except.error e => ⟨⟨500, some (errJson e), corsHeaders⟩, o.calls⟩
  else if req.path = "/resolve" then
    if missingParam req.urlParam then
      ⟨⟨400, some (errJson "Missing query parameter: url"), corsHeaders⟩, 0⟩
    else
      let o := resolveUrl env.st env.now env.scripts env.resolveResp
      match o.result with
      | Except.ok t =>
        ⟨⟨200, some (Json.obj [("track", upTrackToJson t)]), corsHeaders⟩, o.calls⟩
      | Except.error e => ⟨⟨500, some (errJson e), corsHeaders⟩, o.calls⟩
  else if req.path = "/stream" then
    if missingParam req.urlParam then
      ⟨⟨400, some (errJson "Missing query parameter: url"), corsHeaders⟩, 0⟩
    else
      let o := getStreamUrl env.st env.now env.scripts env.resolveResp env.streamResp
      match o.result with
      | Except.ok j => ⟨⟨200, some j, corsHeaders⟩, o.calls⟩
      | Except.error e => ⟨⟨500, some (errJson e), corsHeaders⟩, o.calls⟩
  else ⟨⟨404, some notFoundJson, corsHeaders⟩, 0⟩

/-! ## Platform B: the YouTube video-format selection (Express app) -/

/-- One entry of `info.formats`, restricted to the fields the `/youtube/video`
route reads. -/
structure VideoFormat where
  itag : Nat
  hasAudio : Bool
  hasVideo : Bool
  height : Nat
  url : Option String
  deriving DecidableEq, Repr

/-- Modelled from the spec: `ytdl.chooseFormat(info.formats, {quality:
"highestvideo", filter: "audioandvideo"})` lives in the `ytdl-core-enhanced`
dependency, whose code is not part of this repository; per the spec it is
the globally highest-quality candidate having both audio and video, ties
broken by upstream order.  `bestOf` is its running-maximum step. -/
def bestOf : Option VideoFormat → VideoFormat → Option VideoFormat
  | none, f => some f
  | some b, f => if b.height < f.height then some f else some b

/-- Modelled from the spec: the fold computing the globally
highest-quality audio+video candidate (see `bestOf`). -/
def chooseHighestAV (formats : List VideoFormat) : Option VideoFormat :=
  (formats.filter (fun f => f.hasVideo && f.hasAudio)).foldl bestOf none

/-- The specific-quality branch of `/youtube/video`:
`info.formats.find(f => f.hasVideo && f.hasAudio && f.height <= targetHeight)
|| ytdl.chooseFormat(...)` with `targetHeight = parseInt(quality)`. -/
def selectVideoFormat (formats : List VideoFormat) (targetHeight : Nat) :
    Option VideoFormat :=
  match formats.find?
      (fun f => f.hasVideo && f.hasAudio && decide (f.height ≤ targetHeight)) with
  | some f => some f
  | none => chooseHighestAV formats

/-! ## Two concurrent getClientId calls

The worker is single-threaded but asynchronous: the cache guard runs
synchronously at function entry, while the scrape spans awaits.  Two
concurrent calls interleave at those await points.  A caller is a
three-phase machine: `start` (run the guard), `waiting` (its scrape is in
flight), `done`.  A schedule is a list of booleans, `true` advancing the
first caller one phase. -/

inductive CallerPhase where
  | start : CallerPhase
  | waiting : CallerPhase
  | done : Except String String → CallerPhase

/-- Shared cache plus both callers' phases and a count of landing-page
scrapes performed so far. -/
structure TwoCallerState where
  cache : CacheState
  phaseA : CallerPhase
  phaseB : CallerPhase
  scrapes : Nat

/-- Advance one caller by one phase against the shared cache.  The guard
phase performs no scrape; completing the in-flight scrape counts one
landing-page fetch and, on success, writes the cache — exactly the effects
of `getClientId`'s code between its await points. -/
def stepCaller (now : Nat) (scripts : List ScriptAsset) (cache : CacheState)
    (ph : CallerPhase) (scrapes : Nat) : CacheState × CallerPhase × Nat :=
  match ph with
  | CallerPhase.start =>
    if cacheHit cache now then
      (cache, CallerPhase.done (Except.ok (cache.cachedClientId.getD "")), scrapes)
    else (cache, CallerPhase.waiting, scrapes)
  | CallerPhase.waiting =>
    match scrapeClientId scripts with
    | some tok =>
      (⟨some tok, now + 3600000⟩, CallerPhase.done (Except.ok tok), scrapes + 1)
    | none =>
      (cache, CallerPhase.done (Except.error "Could not extract client_id"),
        scrapes + 1)
  | CallerPhase.done r => (cache, CallerPhase.done r, scrapes)

/-- Advance the chosen caller of the pair. -/
def stepSys (now : Nat) (scripts : List ScriptAsset) (s : TwoCallerState)
    (pickA : Bool) : TwoCallerState :=
  if pickA then
    let r := stepCaller now scripts s.cache s.phaseA s.scrapes
    ⟨r.1, r.2.1, s.phaseB, r.2.2⟩
  else
    let r := stepCaller now scripts s.cache s.phaseB s.scrapes
    ⟨r.1, s.phaseA, r.2.1, r.2.2⟩

/-- Run a schedule from an initial state. -/
def runSched (now : Nat) (scripts : List ScriptAsset) :
    TwoCallerState → List Bool → TwoCallerState
  | s, [] => s
  | s, b :: rest => runSched now scripts (stepSys now scripts s b) rest

/-! ## Concrete fixtures -/

/-- A well-formed 32-character alphanumeric token. -/
def tokenW : String := "a0b1c2d3e4f5a0b1c2d3e4f5a0b1c2d3"

/-- A landing page referencing one CDN script whose text carries the token
under the known key name. -/
def scriptsW : List ScriptAsset :=
  [⟨"https://a-v2.sndcdn.com/assets/app.js",
    some ("client_id:\"" ++ tokenW ++ "\"")⟩]

/-- A cache state holding an unexpired credential (valid until t = 3600000). -/
def stW : CacheState := ⟨some tokenW, 3600000⟩

/-- An upstream track with a progressive transcoding. -/
def upTrackW : UpTrack :=
  ⟨some 42, some "Song", some "https://soundcloud.com/a/song", some 180000,
    none, some ⟨some "alice", none⟩,
    some [⟨some "progressive", some "https://api.example/t1"⟩]⟩

/-- A generic environment: valid cached credential, all upstream calls
succeeding. -/
def envW : WorkerEnv :=
  ⟨stW, 0, scriptsW, ⟨200, some []⟩, ⟨200, upTrackW⟩,
    ⟨200, Json.obj [("url", Json.str "https://cdn.example/signed")]⟩⟩

/-! ## Helper lemmas about the token matcher -/

theorem takeAlnum_shape (n : Nat) :
    ∀ s tk rest, takeAlnum n s = some (tk, rest) →
      tk.length = n ∧ tk.all isAlnumAscii = true := by
  induction n with
  | zero =>
    intro s tk rest h
    simp only [takeAlnum, Option.some.injEq, Prod.mk.injEq] at h
    simp [← h.1]
  | succ n ih =>
    intro s tk rest h
    cases s with
    | nil => simp [takeAlnum] at h
    | cons c cs =>
      simp only [takeAlnum] at h
      by_cases hc : isAlnumAscii c
      · rw [if_pos hc] at h
        cases htk : takeAlnum n cs with
        | none => rw [htk] at h; exact absurd h (by simp)
        | some p =>
          rw [htk] at h
          obtain ⟨tk2, rest2⟩ := p
          simp only [Option.some.injEq, Prod.mk.injEq] at h
          obtain ⟨h1, _⟩ := h
          obtain ⟨hl, ha⟩ := ih cs tk2 rest2 htk
          subst h1
          simp [List.all_cons, hc, hl, ha]
      · rw [if_neg hc] at h; exact absurd h (by simp)

theorem matchAt_shape (s : List Char) (tok : String) (h : matchAt s = some tok) :
    tok.length = 32 ∧ tok.data.all isAlnumAscii = true := by
  unfold matchAt at h
  repeat' split at h
  all_goals try exact Option.noConfusion h
  rename_i tk s4 hd rst heq hq
  obtain rfl := Option.some.inj h
  obtain ⟨hl, ha⟩ := takeAlnum_shape 32 _ tk (hd :: rst) heq
  exact ⟨hl, ha⟩

theorem findClientId_shape (l : List Char) (tok : String)
    (h : findClientId l = some tok) :
    tok.length = 32 ∧ tok.data.all isAlnumAscii = true := by
  induction l with
  | nil => simp [findClientId] at h
  | cons c rest ih =>
    unfold findClientId at h
    cases hm : matchAt (c :: rest) with
    | some t => rw [hm] at h; simp at h; subst h; exact matchAt_shape _ _ hm
    | none => rw [hm] at h; exact ih h

/-- Unfolding of one loop iteration through `candidateYield`. -/
theorem scrapeClientId_cons (a : ScriptAsset) (rest : List ScriptAsset) :
    scrapeClientId (a :: rest) =
      (match candidateYield a with
       | some tok => some tok
       | none => scrapeClientId rest) := by
  by_cases hc : strContains a.url "sndcdn.com"
  · cases hcon : a.content with
    | none => simp [scrapeClientId, candidateYield, hc, hcon]
    | some c =>
      cases hf : findClientId c.data <;>
        simp [scrapeClientId, candidateYield, hc, hcon, hf]
  · simp [scrapeClientId, candidateYield, hc]

theorem scrapeClientId_shape (assets : List ScriptAsset) (tok : String)
    (h : scrapeClientId assets = some tok) :
    tok.length = 32 ∧ tok.data.all isAlnumAscii = true := by
  induction assets with
  | nil => simp [scrapeClientId] at h
  | cons a rest ih =>
    rw [scrapeClientId_cons] at h
    cases hy : candidateYield a with
    | some t =>
      rw [hy] at h; simp at h; subst h
      unfold candidateYield at hy
      split at hy
      · cases hcon : a.content with
        | none => rw [hcon] at hy; simp at hy
        | some c => rw [hcon] at hy; exact findClientId_shape _ _ hy
      · simp at hy
    | none => rw [hy] at h; exact ih h

theorem scrapeClientId_ne_empty (assets : List ScriptAsset) (tok : String)
    (h : scrapeClientId assets = some tok) : tok ≠ "" := by
  intro hemp
  have := (scrapeClientId_shape assets tok h).1
  rw [hemp] at this
  simp [String.length] at this

/-! ## Helper lemmas about getClientId -/

theorem getClientId_hit (st : CacheState) (now : Nat)
    (scripts : List ScriptAsset) (tok : String)
    (h1 : st.cachedClientId = some tok) (h2 : tok ≠ "")
    (h3 : now < st.clientIdExpiry) :
    getClientId st now scripts = ⟨Except.ok tok, st, 0⟩ := by
  have hh : cacheHit st now = true := by
    simp [cacheHit, h1, h2, h3]
  simp [getClientId, hh, h1]

theorem getClientId_miss (st : CacheState) (now : Nat)
    (scripts : List ScriptAsset) (h : cacheHit st now = false) :
    getClientId st now scripts =
      (match scrapeClientId scripts with
       | some tok => ⟨Except.ok tok, ⟨some tok, now + 3600000⟩, 1⟩
       | none => ⟨Except.error "Could not extract client_id", st, 1⟩) := by
  simp [getClientId, h]

/-! ## Claim C4 — TTL behaviour of the credential cache -/

/-- C4: a scrape at time `t0` caches the token with expiry `t0 + 3600000`
(one hour); every later `getClientId` call strictly before that expiry
returns the byte-identical token with zero scrapes and leaves the state
unchanged (so repeated calls keep returning it); any call at or after the
expiry performs a scrape. -/
theorem getClientId_ttl_spec :
    (∀ st t0 scripts tok, scrapeClientId scripts = some tok →
      cacheHit st t0 = false →
      getClientId st t0 scripts = ⟨Except.ok tok, ⟨some tok, t0 + 3600000⟩, 1⟩)
    ∧ (∀ scripts0 tok e now scripts, scrapeClientId scripts0 = some tok →
      now < e →
      getClientId ⟨some tok, e⟩ now scripts = ⟨Except.ok tok, ⟨some tok, e⟩, 0⟩)
    ∧ (∀ tok e now scripts, e ≤ now →
      (getClientId ⟨some tok, e⟩ now scripts).scrapes = 1) := by
  refine ⟨?_, ?_, ?_⟩
  · intro st t0 scripts tok hs hm
    rw [getClientId_miss st t0 scripts hm, hs]
  · intro scripts0 tok e now scripts hs hlt
    exact getClientId_hit ⟨some tok, e⟩ now scripts tok rfl
      (scrapeClientId_ne_empty scripts0 tok hs) hlt
  · intro tok e now scripts hle
    have hm : cacheHit ⟨some tok, e⟩ now = false := by
      simp [cacheHit, Nat.not_lt.mpr hle]
    rw [getClientId_miss _ now scripts hm]
    cases scrapeClientId scripts <;> rfl

/-- Witness for C4 at concrete inputs: acquisition at t = 0, a hit at
t = 3599999 returning the identical token without scraping, a scrape at
t = 3600000. -/
theorem getClientId_ttl_witness :
    getClientId ⟨none, 0⟩ 0 scriptsW =
        ⟨Except.ok tokenW, ⟨some tokenW, 3600000⟩, 1⟩ ∧
    getClientId ⟨some tokenW, 3600000⟩ 3599999 scriptsW =
        ⟨Except.ok tokenW, ⟨some tokenW, 3600000⟩, 0⟩ ∧
    (getClientId ⟨some tokenW, 3600000⟩ 3600000 scriptsW).scrapes = 1 := by
  refine ⟨?_, ?_, ?_⟩
  · exact getClientId_ttl_spec.1 ⟨none, 0⟩ 0 scriptsW tokenW rfl rfl
  · exact getClientId_ttl_spec.2.1 scriptsW tokenW 3600000 3599999 scriptsW rfl
      (by decide)
  · exact getClientId_ttl_spec.2.2 tokenW 3600000 3600000 scriptsW (by decide)

/-! ## Claim C7 — the scraping loop -/

/-- C7: the scrape loop returns `none` (and `getClientId` then throws
`Could not extract client_id`) exactly when no CDN candidate yields a token
match; a candidate whose fetch fails (or that matches nothing, or is not on
the CDN domain) is skipped and the loop moves on; the first yielding
candidate's token is returned as-is; every returned token has exactly 32
alphanumeric characters; the loop is one pass — no retry. -/
theorem scrapeClientId_acquire_spec :
    (∀ assets, scrapeClientId assets = none ↔
      ∀ a ∈ assets, candidateYield a = none)
    ∧ (∀ a assets, candidateYield a = none →
      scrapeClientId (a :: assets) = scrapeClientId assets)
    ∧ (∀ a assets tok, candidateYield a = some tok →
      scrapeClientId (a :: assets) = some tok)
    ∧ (∀ assets tok, scrapeClientId assets = some tok →
      tok.length = 32 ∧ tok.data.all isAlnumAscii = true)
    ∧ (∀ st now assets, cacheHit st now = false → scrapeClientId assets = none →
      (getClientId st now assets).result =
        Except.error "Could not extract client_id") := by
  refine ⟨?_, ?_, ?_, ?_, ?_⟩
  · intro assets
    induction assets with
    | nil => simp [scrapeClientId]
    | cons a rest ih =>
      rw [scrapeClientId_cons]
      cases hy : candidateYield a with
      | some t => simp [hy]
      | none => simpa [hy] using ih
  · intro a assets hy
    rw [scrapeClientId_cons, hy]
  · intro a assets tok hy
    rw [scrapeClientId_cons, hy]
  · exact scrapeClientId_shape
  · intro st now assets hm hs
    rw [getClientId_miss st now assets hm, hs]

/-- Witness for C7: a CDN candidate whose fetch fails makes the loop fail
only if nothing follows; prepended to a yielding page it is skipped and the
token is still found; the token has 32 characters; an empty candidate list
makes `getClientId` throw. -/
theorem scrapeClientId_acquire_witness :
    scrapeClientId [⟨"https://a-v2.sndcdn.com/assets/vendor.js", none⟩] = none ∧
    scrapeClientId (⟨"https://a-v2.sndcdn.com/assets/vendor.js", none⟩ :: scriptsW) =
      some tokenW ∧
    tokenW.length = 32 ∧
    (getClientId ⟨none, 0⟩ 0 []).result =
      Except.error "Could not extract client_id" := by
  refine ⟨?_, ?_, ?_, ?_⟩
  · exact (scrapeClientId_acquire_spec.1
      [⟨"https://a-v2.sndcdn.com/assets/vendor.js", none⟩]).mpr (by decide)
  · exact (scrapeClientId_acquire_spec.2.1
      ⟨"https://a-v2.sndcdn.com/assets/vendor.js", none⟩ scriptsW rfl).trans rfl
  · exact (scrapeClientId_acquire_spec.2.2.2.1 scriptsW tokenW rfl).1
  · exact scrapeClientId_acquire_spec.2.2.2.2 ⟨none, 0⟩ 0 [] rfl rfl

/-! ## Claim C1 — no single-flight refresh -/

/-- C1 (amended): each individual `getClientId` call performs exactly one
landing-page scrape when its guard observes a miss and none on a hit; there
is no single-flight sharing — two concurrent calls that both observe a miss
(both guards run before either scrape completes) each perform their own
scrape, two in total, each caller receiving the result of its own scrape. -/
theorem getClientId_per_call_scrapes :
    (∀ st now scripts, (getClientId st now scripts).scrapes =
      if cacheHit st now = true then 0 else 1)
    ∧ runSched 0 scriptsW ⟨⟨none, 0⟩, CallerPhase.start, CallerPhase.start, 0⟩
        [true, false] =
      ⟨⟨none, 0⟩, CallerPhase.waiting, CallerPhase.waiting, 0⟩
    ∧ runSched 0 scriptsW ⟨⟨none, 0⟩, CallerPhase.start, CallerPhase.start, 0⟩
        [true, false, true, false] =
      ⟨⟨some tokenW, 3600000⟩, CallerPhase.done (Except.ok tokenW),
        CallerPhase.done (Except.ok tokenW), 2⟩ := by
  refine ⟨?_, rfl, rfl⟩
  intro st now scripts
  by_cases h : cacheHit st now = true
  · simp [getClientId, h]
  · rw [if_neg h, getClientId_miss st now scripts (by simpa using h)]
    cases scrapeClientId scripts <;> rfl

/-- Counterexample to C1 as stated: from an empty cache, the interleaving in
which both callers run their guards before either scrape completes performs
two scrapes, not exactly one. -/
theorem singleFlight_cex :
    (runSched 0 scriptsW ⟨⟨none, 0⟩, CallerPhase.start, CallerPhase.start, 0⟩
        [true, false, true, false]).scrapes = 2 ∧ (2 : Nat) ≠ 1 :=
  ⟨rfl, by decide⟩

/-! ## Claim C2 — no invalidate-and-retry on 401 -/

/-- C2 (amended): on any non-2xx metadata response — a 401 included —
`resolveUrl` throws `SoundCloud resolve error: <status>` at once, having
made exactly one upstream call; the cached credential is left in place (no
invalidation) and no retry happens; no distinct auth error exists. -/
theorem resolveUrl_non2xx_spec :
    ∀ st now scripts resp, cacheHit st now = true → respOk resp.status = false →
      resolveUrl st now scripts resp =
        ⟨Except.error ("SoundCloud resolve error: " ++ Nat.repr resp.status),
          st, 1⟩ := by
  intro st now scripts resp hh hr
  have hg : getClientId st now scripts =
      ⟨Except.ok (st.cachedClientId.getD ""), st, 0⟩ := by
    simp [getClientId, hh]
  simp [resolveUrl, hg, hr]

/-- Witness for C2's amended theorem: a 401 with a warm cache. -/
theorem resolveUrl_non2xx_witness :
    resolveUrl stW 0 scriptsW ⟨401, upTrackW⟩ =
      ⟨Except.error ("SoundCloud resolve error: " ++ Nat.repr 401), stW, 1⟩ :=
  resolveUrl_non2xx_spec stW 0 scriptsW ⟨401, upTrackW⟩ (by decide) (by decide)

/-- Counterexample to C2 as stated: against an upstream that answers 401
first (then would answer 200), the call fails immediately with the generic
error, the cache state is untouched (zero invalidations) and exactly one
upstream request was made (no retry). -/
theorem resolveUrl_401_cex :
    (resolveUrl stW 0 scriptsW ⟨401, upTrackW⟩).result =
        Except.error "SoundCloud resolve error: 401" ∧
    (resolveUrl stW 0 scriptsW ⟨401, upTrackW⟩).state = stW ∧
    (resolveUrl stW 0 scriptsW ⟨401, upTrackW⟩).calls = 1 :=
  ⟨rfl, rfl, rfl⟩

/-! ## Claim C3 — transcoding selection -/

/-- A variant list whose only progressive entry has no source URL while a
later entry has one. -/
def tsC3 : List Transcoding :=
  [⟨some "progressive", none⟩, ⟨some "hls", some "https://cdn.example/a.m3u8"⟩]

/-- Counterexample to C3 as stated: the selection fails with
`No transcoding URL found` although a candidate in the list (the hls entry)
does expose a usable source URL — so failure is not *exactly* the
no-usable-candidate condition. -/
theorem selectTranscoding_cex :
    selectTranscoding (some tsC3) = Except.error "No transcoding URL found" ∧
    (⟨some "hls", some "https://cdn.example/a.m3u8"⟩ : Transcoding) ∈ tsC3 ∧
    truthyStr (Transcoding.url ⟨some "hls", some "https://cdn.example/a.m3u8"⟩) =
      true :=
  ⟨rfl, by decide, rfl⟩

/-- C3 (amended): the selection prefers `progressive` regardless of position
(whenever a progressive entry exists and URLs are usable, a progressive one
is returned); with no progressive entry the first variant in upstream order
is returned; a missing/absent list and the empty list fail with a typed
error, never a null dereference; but a missing source URL is only detected
on the *selected* variant — if the chosen entry lacks a usable URL the call
fails even when another candidate has one.  Selection errors propagate
unchanged out of `getStreamUrl`. -/
theorem selectTranscoding_spec :
    (selectTranscoding none = Except.error "No transcodings available")
    ∧ (selectTranscoding (some []) = Except.error "No transcoding URL found")
    ∧ (∀ ts t, ts.find? (fun u => u.protocol = some "progressive") = some t →
      truthyStr t.url = true → selectTranscoding (some ts) = Except.ok t)
    ∧ (∀ ts t, ts.find? (fun u => u.protocol = some "progressive") = some t →
      truthyStr t.url = false →
      selectTranscoding (some ts) = Except.error "No transcoding URL found")
    ∧ (∀ ts t, ts.find? (fun u => u.protocol = some "progressive") = none →
      ts.head? = some t → truthyStr t.url = true →
      selectTranscoding (some ts) = Except.ok t)
    ∧ (∀ ts, (∃ t ∈ ts, t.protocol = some "progressive") →
      (∀ u ∈ ts, truthyStr u.url = true) →
      ∃ t, selectTranscoding (some ts) = Except.ok t ∧
        t.protocol = some "progressive")
    ∧ (∀ st now scripts rresp sresp e,
      (resolveUrl st now scripts rresp).result = Except.ok rresp.track →
      selectTranscoding rresp.track.media = Except.error e →
      (getStreamUrl st now scripts rresp sresp).result = Except.error e) := by
  refine ⟨rfl, rfl, ?_, ?_, ?_, ?_, ?_⟩
  · intro ts t hfind hurl
    simp [selectTranscoding, hfind, hurl]
  · intro ts t hfind hurl
    simp [selectTranscoding, hfind, hurl]
  · intro ts t hfind hhead hurl
    simp [selectTranscoding, hfind, hhead, hurl]
  · intro ts hex hall
    obtain ⟨t0, ht0, hp0⟩ := hex
    have hsome : (ts.find? (fun u => u.protocol = some "progressive")).isSome := by
      rw [List.find?_isSome]
      exact ⟨t0, ht0, by simp [hp0]⟩
    obtain ⟨t, hfind⟩ := Option.isSome_iff_exists.mp hsome
    have hmem := List.mem_of_find?_eq_some hfind
    have hp : t.protocol = some "progressive" := by
      have := List.find?_some hfind
      simpa using this
    exact ⟨t, by simp [selectTranscoding, hfind, hall t hmem], hp⟩
  · intro st now scripts rresp sresp e hres hsel
    simp only [getStreamUrl, hres, hsel]

/-- Witness for C3's amended theorem: a progressive entry in second position
wins; a lone non-progressive entry is taken as first in order; the concrete
failing list of the counterexample routes through the selected-entry check. -/
theorem selectTranscoding_witness :
    selectTranscoding (some [⟨some "hls", some "https://cdn.example/p.m3u8"⟩,
        ⟨some "progressive", some "https://cdn.example/d.mp3"⟩]) =
      Except.ok ⟨some "progressive", some "https://cdn.example/d.mp3"⟩ ∧
    selectTranscoding (some [⟨some "hls", some "https://cdn.example/p.m3u8"⟩]) =
      Except.ok ⟨some "hls", some "https://cdn.example/p.m3u8"⟩ ∧
    selectTranscoding (some tsC3) = Except.error "No transcoding URL found" := by
  refine ⟨?_, ?_, ?_⟩
  · exact selectTranscoding_spec.2.2.1 _ _ rfl rfl
  · exact selectTranscoding_spec.2.2.2.2.1 _ _ rfl rfl rfl
  · exact selectTranscoding_spec.2.2.2.1 tsC3 ⟨some "progressive", none⟩ rfl rfl

/-! ## Claim C5 — YouTube video-format selection -/

theorem foldl_bestOf_mem (l : List VideoFormat) :
    ∀ (acc : Option VideoFormat) (b : VideoFormat),
      l.foldl bestOf acc = some b → acc = some b ∨ b ∈ l := by
  induction l with
  | nil => intro acc b h; exact Or.inl h
  | cons f rest ih =>
    intro acc b h
    rw [List.foldl_cons] at h
    rcases ih (bestOf acc f) b h with hacc | hmem
    · cases acc with
      | none =>
        simp only [bestOf, Option.some.injEq] at hacc
        exact Or.inr (by simp [hacc])
      | some a =>
        simp only [bestOf] at hacc
        by_cases hlt : a.height < f.height
        · rw [if_pos hlt] at hacc
          simp only [Option.some.injEq] at hacc
          exact Or.inr (by simp [hacc])
        · rw [if_neg hlt] at hacc
          exact Or.inl hacc
    · exact Or.inr (List.mem_cons_of_mem f hmem)

theorem foldl_bestOf_ge (l : List VideoFormat) :
    ∀ (acc : Option VideoFormat) (b : VideoFormat),
      l.foldl bestOf acc = some b →
        (∀ a, acc = some a → a.height ≤ b.height) ∧
        (∀ f ∈ l, f.height ≤ b.height) := by
  induction l with
  | nil =>
    intro acc b h
    refine ⟨fun a ha => ?_, by simp⟩
    rw [ha] at h
    simp only [List.foldl_nil, Option.some.injEq] at h
    rw [h]
  | cons f rest ih =>
    intro acc b h
    rw [List.foldl_cons] at h
    obtain ⟨hacc, hrest⟩ := ih (bestOf acc f) b h
    have hf : f.height ≤ b.height := by
      cases acc with
      | none => exact hacc f rfl
      | some a =>
        by_cases hlt : a.height < f.height
        · exact hacc f (by simp [bestOf, hlt])
        · exact le_trans (Nat.le_of_not_lt hlt) (hacc a (by simp [bestOf, hlt]))
    refine ⟨fun a ha => ?_, fun g hg => ?_⟩
    · subst ha
      by_cases hlt : a.height < f.height
      · exact le_trans (Nat.le_of_lt hlt) hf
      · exact hacc a (by simp [bestOf, hlt])
    · rcases List.mem_cons.mp hg with rfl | hg2
      · exact hf
      · exact hrest g hg2

theorem foldl_bestOf_some (l : List VideoFormat) :
    ∀ c : VideoFormat, ∃ b, l.foldl bestOf (some c) = some b := by
  induction l with
  | nil => intro c; exact ⟨c, rfl⟩
  | cons f rest ih =>
    intro c
    rw [List.foldl_cons]
    by_cases hlt : c.height < f.height
    · simpa [bestOf, hlt] using ih f
    · simpa [bestOf, hlt] using ih c

theorem chooseHighestAV_charact (formats : List VideoFormat)
    (b : VideoFormat) (h : chooseHighestAV formats = some b) :
    b.hasAudio = true ∧ b.hasVideo = true ∧ b ∈ formats ∧
    ∀ f ∈ formats, f.hasVideo = true → f.hasAudio = true →
      f.height ≤ b.height := by
  unfold chooseHighestAV at h
  have hmem : b ∈ formats.filter (fun f => f.hasVideo && f.hasAudio) := by
    rcases foldl_bestOf_mem _ _ b h with hacc | hm
    · exact absurd hacc (by simp)
    · exact hm
  have hb := List.mem_filter.mp hmem
  have hge := (foldl_bestOf_ge _ _ b h).2
  refine ⟨?_, ?_, hb.1, fun f hf hv ha => ?_⟩
  · have := hb.2; simp only [Bool.and_eq_true] at this; exact this.2
  · have := hb.2; simp only [Bool.and_eq_true] at this; exact this.1
  · exact hge f (List.mem_filter.mpr ⟨hf, by simp [hv, ha]⟩)

theorem chooseHighestAV_exists (formats : List VideoFormat)
    (f : VideoFormat) (hf : f ∈ formats) (hv : f.hasVideo = true)
    (ha : f.hasAudio = true) : ∃ b, chooseHighestAV formats = some b := by
  unfold chooseHighestAV
  have hfl : f ∈ formats.filter (fun g => g.hasVideo && g.hasAudio) :=
    List.mem_filter.mpr ⟨hf, by simp [hv, ha]⟩
  obtain ⟨g, rest, hcons⟩ := List.exists_cons_of_ne_nil
    (List.ne_nil_of_mem hfl)
  rw [hcons, List.foldl_cons]
  exact foldl_bestOf_some rest g

/-- Video formats of descending quality, all with audio and video. -/
def fmt1080 : VideoFormat := ⟨137, true, true, 1080, some "https://v.example/1080"⟩

def fmt720 : VideoFormat := ⟨136, true, true, 720, some "https://v.example/720"⟩

def fmt480 : VideoFormat := ⟨135, true, true, 480, some "https://v.example/480"⟩

def fmtsW : List VideoFormat := [fmt1080, fmt720, fmt480]

/-- C5: with a requested height, the selection considers only candidates
with both audio and video; it returns the first candidate (upstream order)
whose height is within the target; when none fits it falls back to the
globally highest-quality audio+video candidate (which exists whenever any
audio+video candidate does); on heights [1080, 720, 480], target 600 picks
the 480 entry, target 2000 the 1080 entry, and target 300 falls back to the
1080 entry. -/
theorem selectVideoFormat_spec :
    (∀ formats target f, selectVideoFormat formats target = some f →
      f.hasAudio = true ∧ f.hasVideo = true)
    ∧ (∀ formats target f,
      formats.find?
          (fun g => g.hasVideo && g.hasAudio && decide (g.height ≤ target)) =
        some f →
      selectVideoFormat formats target = some f ∧ f.height ≤ target)
    ∧ (∀ formats target,
      formats.find?
          (fun g => g.hasVideo && g.hasAudio && decide (g.height ≤ target)) =
        none →
      selectVideoFormat formats target = chooseHighestAV formats)
    ∧ (∀ formats b, chooseHighestAV formats = some b →
      b.hasAudio = true ∧ b.hasVideo = true ∧ b ∈ formats ∧
      ∀ f ∈ formats, f.hasVideo = true → f.hasAudio = true →
        f.height ≤ b.height)
    ∧ (∀ formats f, f ∈ formats → f.hasVideo = true → f.hasAudio = true →
      ∃ b, selectVideoFormat formats 0 = some b ∨
        chooseHighestAV formats = some b)
    ∧ (selectVideoFormat fmtsW 600 = some fmt480 ∧
      selectVideoFormat fmtsW 2000 = some fmt1080 ∧
      selectVideoFormat fmtsW 300 = some fmt1080) := by
  refine ⟨?_, ?_, ?_, fun formats b h => chooseHighestAV_charact formats b h,
    ?_, by decide, by decide, by decide⟩
  · intro formats target f h
    unfold selectVideoFormat at h
    cases hfind : formats.find?
        (fun g => g.hasVideo && g.hasAudio && decide (g.height ≤ target)) with
    | some g =>
      rw [hfind] at h
      simp only [Option.some.injEq] at h
      subst h
      have := List.find?_some hfind
      simp only [Bool.and_eq_true, decide_eq_true_eq] at this
      exact ⟨this.1.2, this.1.1⟩
    | none =>
      rw [hfind] at h
      have hc := chooseHighestAV_charact formats f h
      exact ⟨hc.1, hc.2.1⟩
  · intro formats target f hfind
    have := List.find?_some hfind
    simp only [Bool.and_eq_true, decide_eq_true_eq] at this
    exact ⟨by simp [selectVideoFormat, hfind], this.2⟩
  · intro formats target hfind
    simp [selectVideoFormat, hfind]
  · intro formats f hf hv ha
    obtain ⟨b, hb⟩ := chooseHighestAV_exists formats f hf hv ha
    exact ⟨b, Or.inr hb⟩

/-- Witness for C5 at the spec's own example: heights [1080, 720, 480] with
target 600 select the 480 entry; the fallback on target 300 is the
1080 entry, which dominates every audio+video candidate. -/
theorem selectVideoFormat_witness :
    (selectVideoFormat fmtsW 600 = some fmt480 ∧ fmt480.height ≤ 600) ∧
    selectVideoFormat fmtsW 300 = chooseHighestAV fmtsW ∧
    (fmt1080.hasAudio = true ∧ fmt1080.hasVideo = true ∧ fmt1080 ∈ fmtsW ∧
      ∀ f ∈ fmtsW, f.hasVideo = true → f.hasAudio = true →
        f.height ≤ fmt1080.height) := by
  refine ⟨?_, ?_, ?_⟩
  · exact selectVideoFormat_spec.2.1 fmtsW 600 fmt480 rfl
  · exact selectVideoFormat_spec.2.2.1 fmtsW 300 rfl
  · exact selectVideoFormat_spec.2.2.2.1 fmtsW fmt1080 rfl

/-! ## Claim C6 — upstream not-found surfaces as HTTP 500 -/

/-- An environment whose `/resolve` upstream answers 404. -/
def envC6 : WorkerEnv :=
  ⟨stW, 0, scriptsW, ⟨200, some []⟩, ⟨404, upTrackW⟩, ⟨200, Json.obj []⟩⟩

/-- Counterexample to C6 as stated: with the upstream answering 404 to the
metadata request, the boundary returns HTTP 500 (the generic-failure
mapping), not 404. -/
theorem resolve_404_cex :
    envC6.resolveResp.status = 404 ∧
    (workerFetch ⟨"GET", "/resolve", none,
        some "https://soundcloud.com/a/song"⟩ envC6).response.status = 500 ∧
    (workerFetch ⟨"GET", "/resolve", none,
        some "https://soundcloud.com/a/song"⟩ envC6).response.status ≠ 404 :=
  ⟨rfl, rfl, by decide⟩

/-- C6 (amended): an upstream 404 on `/resolve` is thrown as the generic
`SoundCloud resolve error: 404` and mapped by the catch-all to an HTTP 500
response with that message — identical to any other upstream failure; no
`NotFoundError`-to-404 mapping exists. -/
theorem resolve_404_surfaced_as_500 :
    ∀ env url, cacheHit env.st env.now = true → env.resolveResp.status = 404 →
      url ≠ "" →
      (workerFetch ⟨"GET", "/resolve", none, some url⟩ env).response.status =
        500 ∧
      (workerFetch ⟨"GET", "/resolve", none, some url⟩ env).response.body =
        some (errJson ("SoundCloud resolve error: " ++ Nat.repr 404)) := by
  intro env url hh hs hu
  have hr := resolveUrl_non2xx_spec env.st env.now env.scripts env.resolveResp
    hh (by rw [hs]; rfl)
  rw [hs] at hr
  constructor <;> simp +decide [workerFetch, missingParam, hu, hr]

/-- Witness for C6's amended theorem at the concrete 404 environment. -/
theorem resolve_404_witness :
    (workerFetch ⟨"GET", "/resolve", none,
        some "https://soundcloud.com/a/song"⟩ envC6).response.status = 500 ∧
    (workerFetch ⟨"GET", "/resolve", none,
        some "https://soundcloud.com/a/song"⟩ envC6).response.body =
      some (errJson ("SoundCloud resolve error: " ++ Nat.repr 404)) :=
  resolve_404_surfaced_as_500 envC6 "https://soundcloud.com/a/song"
    (by decide) rfl (by decide)

/-! ## Claim C8 — validation and fallthrough responses -/

/-- Counterexample to C8 as stated: an OPTIONS request to an unrecognized
path gets the 200 preflight response, not the 404 endpoint list — the
preflight check runs before any routing. -/
theorem preflight_unknown_path_cex :
    (workerFetch ⟨"OPTIONS", "/nope", none, none⟩ envC6).response.status =
      200 ∧
    (workerFetch ⟨"OPTIONS", "/nope", none, none⟩ envC6).response.status ≠
      404 :=
  ⟨rfl, by decide⟩

/-- C8 (amended): for every request whose method is not OPTIONS, `/search`
without a `q` parameter yields 400 with `{error: "Missing query parameter:
q"}`, and an unrecognized path yields 404 with the endpoint-list body; every
response of the handler — the OPTIONS preflight included — carries the CORS
headers. -/
theorem gateway_validation_spec :
    (∀ env m u, m ≠ "OPTIONS" →
      (workerFetch ⟨m, "/search", none, u⟩ env).response =
        ⟨400, some (errJson "Missing query parameter: q"), corsHeaders⟩)
    ∧ (∀ env req, req.method ≠ "OPTIONS" → req.path ≠ "/health" →
      req.path ≠ "/search" → req.path ≠ "/resolve" → req.path ≠ "/stream" →
      (workerFetch req env).response = ⟨404, some notFoundJson, corsHeaders⟩)
    ∧ (∀ env req, (workerFetch req env).response.headers = corsHeaders) := by
  refine ⟨?_, ?_, ?_⟩
  · intro env m u hm
    simp +decide [workerFetch, hm, missingParam]
  · intro env req hm h1 h2 h3 h4
    obtain ⟨m, p, q, u⟩ := req
    simp only [workerFetch]
    rw [if_neg hm, if_neg h1, if_neg h2, if_neg h3, if_neg h4]
  · intro env req
    obtain ⟨m, p, q, u⟩ := req
    simp only [workerFetch]
    repeat' split
    all_goals rfl

/-- Witness for C8's amended theorem at concrete requests. -/
theorem gateway_validation_witness :
    (workerFetch ⟨"GET", "/search", none, none⟩ envC6).response =
      ⟨400, some (errJson "Missing query parameter: q"), corsHeaders⟩ ∧
    (workerFetch ⟨"GET", "/nope", none, none⟩ envC6).response =
      ⟨404, some notFoundJson, corsHeaders⟩ ∧
    (workerFetch ⟨"OPTIONS", "/x", none, none⟩ envC6).response.headers =
      corsHeaders := by
  refine ⟨?_, ?_, ?_⟩
  · exact gateway_validation_spec.1 envC6 "GET" none (by decide)
  · exact gateway_validation_spec.2.1 envC6 ⟨"GET", "/nope", none, none⟩
      (by decide) (by decide) (by decide) (by decide) (by decide)
  · exact gateway_validation_spec.2.2 envC6 ⟨"OPTIONS", "/x", none, none⟩

/-! ## Claim C9 — search normalization -/

/-- Four upstream tracks: one with a full user object, one with no user at
all, one with a user lacking both names, one with only a username. -/
def fourTracks : List UpTrack :=
  [⟨some 1, some "T1", some "https://soundcloud.com/u/t1", some 60000, none,
      some ⟨some "alice", some "Alice"⟩, none⟩,
   ⟨some 2, some "T2", some "https://soundcloud.com/u/t2", some 61000, none,
      none, none⟩,
   ⟨some 3, some "T3", some "https://soundcloud.com/u/t3", some 62000, none,
      some ⟨none, none⟩, none⟩,
   ⟨some 4, some "T4", some "https://soundcloud.com/u/t4", some 63000, none,
      some ⟨some "dora", none⟩, none⟩]

/-- C9: a 2xx search response with a collection of tracks yields exactly one
normalized entry per upstream track, in upstream order (`map`); each entry's
`id`, `title` and `permalink_url` are copied from the upstream track; a
missing `user` (or missing `user.username`) leaves the field absent rather
than failing; in particular four upstream tracks yield four entries. -/
theorem searchTracks_normalization_spec :
    (∀ st now scripts resp ts, cacheHit st now = true →
      respOk resp.status = true → resp.collection = some ts →
      (searchTracks st now scripts resp).result =
        Except.ok (ts.map normalizeTrack) ∧
      (ts.map normalizeTrack).length = ts.length)
    ∧ (∀ t, (normalizeTrack t).id = t.id ∧ (normalizeTrack t).title = t.title ∧
      (normalizeTrack t).permalinkUrl = t.permalinkUrl ∧
      (t.user = none → (normalizeTrack t).username = none) ∧
      (∀ u, t.user = some u → (normalizeTrack t).username = u.username))
    ∧ ((fourTracks.map normalizeTrack).length = 4 ∧
      (searchTracks stW 0 scriptsW ⟨200, some fourTracks⟩).result =
        Except.ok (fourTracks.map normalizeTrack)) := by
  refine ⟨?_, ?_, rfl, rfl⟩
  · intro st now scripts resp ts hh hr hcol
    have hg : getClientId st now scripts =
        ⟨Except.ok (st.cachedClientId.getD ""), st, 0⟩ := by
      simp [getClientId, hh]
    refine ⟨?_, List.length_map ts normalizeTrack⟩
    simp [searchTracks, hg, hr, hcol]
  · intro t
    refine ⟨rfl, rfl, rfl, ?_, ?_⟩
    · intro h; simp [normalizeTrack, h]
    · intro u h; simp [normalizeTrack, h]

/-- Witness for C9 at the four-track fixture (track 2 has no user object,
and its normalized `username` is absent, without an error). -/
theorem searchTracks_normalization_witness :
    (searchTracks stW 0 scriptsW ⟨200, some fourTracks⟩).result =
      Except.ok (fourTracks.map normalizeTrack) ∧
    (fourTracks.map normalizeTrack).length = fourTracks.length ∧
    (normalizeTrack ⟨some 2, some "T2", some "https://soundcloud.com/u/t2",
      some 61000, none, none, none⟩).username = none := by
  have h := searchTracks_normalization_spec.1 stW 0 scriptsW
    ⟨200, some fourTracks⟩ fourTracks (by decide) (by decide) rfl
  exact ⟨h.1, h.2, (searchTracks_normalization_spec.2.1
    ⟨some 2, some "T2", some "https://soundcloud.com/u/t2", some 61000, none,
      none, none⟩).2.2.2.1 rfl⟩

/-! ## Claim C10 — empty required parameters -/

/-- Counterexample to C10 as stated: an OPTIONS request to `/search` with
`q=""` receives the 200 preflight response, not a 400. -/
theorem preflight_empty_param_cex :
    (workerFetch ⟨"OPTIONS", "/search", some "", none⟩ envC6).response.status =
      200 ∧
    (workerFetch ⟨"OPTIONS", "/search", some "", none⟩ envC6).response.status ≠
      400 :=
  ⟨rfl, by decide⟩

/-- C10 (amended): for every request whose method is not OPTIONS, an empty
required parameter (`q` on `/search`, `url` on `/resolve` and `/stream`) is
treated exactly like a missing one: HTTP 400 with the corresponding
missing-parameter body, and zero outbound calls (nothing is forwarded
upstream). -/
theorem empty_param_as_missing_spec :
    ∀ env m u, m ≠ "OPTIONS" →
      ((workerFetch ⟨m, "/search", some "", u⟩ env).response =
          ⟨400, some (errJson "Missing query parameter: q"), corsHeaders⟩ ∧
        (workerFetch ⟨m, "/search", some "", u⟩ env).calls = 0) ∧
      ((workerFetch ⟨m, "/resolve", none, some ""⟩ env).response =
          ⟨400, some (errJson "Missing query parameter: url"), corsHeaders⟩ ∧
        (workerFetch ⟨m, "/resolve", none, some ""⟩ env).calls = 0) ∧
      ((workerFetch ⟨m, "/stream", none, some ""⟩ env).response =
          ⟨400, some (errJson "Missing query parameter: url"), corsHeaders⟩ ∧
        (workerFetch ⟨m, "/stream", none, some ""⟩ env).calls = 0) := by
  intro env m u hm
  refine ⟨⟨?_, ?_⟩, ⟨?_, ?_⟩, ⟨?_, ?_⟩⟩ <;>
    simp +decide [workerFetch, hm, missingParam]

/-- Witness for C10's amended theorem at a concrete GET request. -/
theorem empty_param_as_missing_witness :
    (workerFetch ⟨"GET", "/search", some "", none⟩ envC6).response =
      ⟨400, some (errJson "Missing query parameter: q"), corsHeaders⟩ ∧
    (workerFetch ⟨"GET", "/stream", none, some ""⟩ envC6).response =
      ⟨400, some (errJson "Missing query parameter: url"), corsHeaders⟩ := by
  have h := empty_param_as_missing_spec envC6 "GET" none (by decide)
  exact ⟨h.1.1, h.2.2.1⟩

end Zenload
